import Mathlib

/-!
Shallow embedding of the promotion scripts of the Dockertag repository.

External command execution (Fabric `local` in scripts/fabfile.py,
`subprocess.check_output` in scripts/tag_utils.py) is modelled by an
oracle `ExecEnv`: for a command string `c`, `env c k` is the outcome of
the k-th invocation of `c` in the process (counting from 0), either
`Except.ok ()` (exit code 0) or `Except.error msg` (the message of the raised
exception).  Every run threads an explicit trace of events:
each command invocation appends an `Event.exec` and each retry delay
appends an `Event.sleep` with its duration in seconds, so invocation
counts and inter-attempt delays are observable.
-/

inductive Event where
  | exec (cmd : String)
  | sleep (secs : Nat)
deriving DecidableEq, Repr

def ExecEnv : Type := String → Nat → Except String Unit

def isExecOf (cmd : String) : Event → Bool
  | Event.exec c => c == cmd
  | Event.sleep _ => false

/-- Number of invocations of `cmd` recorded in a trace. -/
def execCount (tr : List Event) (cmd : String) : Nat :=
  tr.countP (isExecOf cmd)

/-- The sequence of retry delays (in seconds) recorded in a trace. -/
def sleepDurations (tr : List Event) : List Nat :=
  tr.filterMap (fun e => match e with | Event.sleep s => some s | Event.exec _ => none)

def isErr {ε α : Type} : Except ε α → Bool
  | Except.error _ => true
  | Except.ok _ => false

/-! ## scripts/fabfile.py -/

/-- Result status strings used by `process_image` in scripts/fabfile.py. -/
inductive Status where
  | SUCCESS
  | DRY_RUN_SUCCESS
  | FAILURE
deriving DecidableEq, Repr

/-- The result dict built by `process_image` in scripts/fabfile.py. -/
structure Result where
  image : String
  source : String
  destination : String
  status : Status
  message : String
deriving DecidableEq, Repr

def DOCKER_REPO_PREFIX : String := "mycompanyrepo"

/-- The reference string f"\x7bDOCKER_REPO_PREFIX\x7d/\x7bimage_name\x7d:\x7btag\x7d". -/
def mkImage (image_name tag : String) : String :=
  DOCKER_REPO_PREFIX ++ "/" ++ image_name ++ ":" ++ tag

def pullCmd (image_name source_tag : String) : String :=
  "docker pull " ++ mkImage image_name source_tag

def tagCmd (image_name source_tag destination_tag : String) : String :=
  "docker tag " ++ (mkImage image_name source_tag ++ (" " ++ mkImage image_name destination_tag))

def pushCmd (image_name destination_tag : String) : String :=
  "docker push " ++ mkImage image_name destination_tag

/--
Loop body of `retry_command` (scripts/fabfile.py).  `fuel` is the number
of loop iterations left (`retries - attempt`); `attempt` is the Python
loop index, used only for the backoff `time.sleep(2 ** attempt)`.
When the fuel is exhausted without an exception escaping, the Python
function falls through to `return False`.  A failing attempt with
`attempt + 1 == retries` (here `fuel = 1`) re-raises the exception.
-/
def retryCommandGo (env : ExecEnv) (command : String) :
    Nat → Nat → List Event → List Event × Except String Bool
  | 0, _, tr => (tr, Except.ok false)
  | fuel + 1, attempt, tr =>
    let tr1 := tr ++ [Event.exec command]
    match env command (execCount tr command) with
    | Except.ok _ => (tr1, Except.ok true)
    | Except.error e =>
      match fuel with
      | 0 => (tr1, Except.error e)
      | _ + 1 => retryCommandGo env command fuel (attempt + 1) (tr1 ++ [Event.sleep (2 ^ attempt)])

/-- `retry_command(command, image_logger, retries=3)` from scripts/fabfile.py. -/
def retry_command (env : ExecEnv) (command : String) (retries : Nat) (tr : List Event) :
    List Event × Except String Bool :=
  retryCommandGo env command retries 0 tr

/--
`process_image(image_name, source_tag, destination_tag, dry_run, log_file)`
from scripts/fabfile.py: pull, tag, then push (only when dry_run equals "NO"),
each via `retry_command` with the default `retries=3`; any exception is
caught and recorded as a FAILURE result with `str(e)` as the message.
Logging is omitted (pure side channel).
-/
def process_image (env : ExecEnv) (image_name source_tag destination_tag dry_run : String)
    (tr : List Event) : List Event × Result :=
  let base : Result :=
    { image := image_name, source := source_tag, destination := destination_tag,
      status := Status.FAILURE, message := "" }
  match retry_command env (pullCmd image_name source_tag) 3 tr with
  | (tr1, Except.error e) => (tr1, { base with status := Status.FAILURE, message := e })
  | (tr1, Except.ok _) =>
    match retry_command env (tagCmd image_name source_tag destination_tag) 3 tr1 with
    | (tr2, Except.error e) => (tr2, { base with status := Status.FAILURE, message := e })
    | (tr2, Except.ok _) =>
      if dry_run = "NO" then
        match retry_command env (pushCmd image_name destination_tag) 3 tr2 with
        | (tr3, Except.error e) => (tr3, { base with status := Status.FAILURE, message := e })
        | (tr3, Except.ok _) =>
          (tr3, { base with status := Status.SUCCESS, message := "Image successfully tagged and pushed." })
      else
        (tr2, { base with status := Status.DRY_RUN_SUCCESS, message := "Image successfully tagged (Dry Run)." })

/-- Python `str(x)` on an optional string argument (`None` prints as "None"). -/
def optStr : Option String → String
  | none => "None"
  | some s => s

/-- The images split-on-comma / remove-"all" preprocessing of `tag_images`. -/
def splitImages (images : String) : List String :=
  let final_images := images.splitOn ","
  if final_images.contains "all" && decide (1 < final_images.length) then
    final_images.erase "all"
  else final_images

/-- Tag dispatch of `tag_images` (raises `ValueError` on unknown `tag_type`). -/
def selectPromotionTags (tag_type : String)
    (source_tag destination_tag custom_source_tag : Option String) :
    Except String (Option String × Option String) :=
  if tag_type = "latest_to_stable" then Except.ok (some "latest", some "stable")
  else if tag_type = "custom_to_latest" then Except.ok (custom_source_tag, some "latest")
  else if tag_type = "custom_to_custom" then Except.ok (source_tag, destination_tag)
  else Except.error ("Invalid tag_type: " ++ tag_type)

/--
The worker pool of `tag_images`, collecting one result per task in
submission order (the Python code gathers `future.result()` over the
submitted futures in order).  The thread pool is modelled by a sequential
linearisation threading the event trace.
-/
def run_all (env : ExecEnv) (tasks : List (String × String × String × String))
    (tr : List Event) : List Event × List Result :=
  match tasks with
  | [] => (tr, [])
  | task :: rest =>
    let step := process_image env task.1 task.2.1 task.2.2.1 task.2.2.2 tr
    let next := run_all env rest step.1
    (next.1, step.2 :: next.2)

/-- Step 5 of `tag_images`: raise iff any result has status FAILURE. -/
def overall_check (all_results : List Result) : Except String Unit :=
  if all_results.any (fun r => r.status == Status.FAILURE) then
    Except.error "One or more image tagging operations failed. Check logs for details."
  else Except.ok ()

/--
`tag_images` from scripts/fabfile.py: split the image list, resolve the
source/destination tags by `tag_type`, process every image collecting all
results (saved to the results file, modelled by returning them), then
fail the job iff any result is a FAILURE.
-/
def tag_images (env : ExecEnv) (images dry_run tag_type : String)
    (source_tag destination_tag custom_source_tag : Option String) (tr : List Event) :
    List Event × List Result × Except String Unit :=
  match selectPromotionTags tag_type source_tag destination_tag custom_source_tag with
  | Except.error e => (tr, [], Except.error e)
  | Except.ok (source, destination) =>
    let tasks := (splitImages images).map
      (fun image => (image.trim, optStr source, optStr destination, dry_run))
    let out := run_all env tasks tr
    (out.1, out.2, overall_check out.2)

/-! ## scripts/tag_utils.py -/

def RETRY_COUNT : Nat := 3
def RETRY_DELAY : Nat := 5

/-- Python `str.upper()` restricted to ASCII (all values compared here are
ASCII option strings such as YES/NO), written as a structural map over the
characters. -/
def pyUpper (s : String) : String :=
  String.mk (s.data.map Char.toUpper)

/-- Command built by `image_exists` (note: the registry argument is unused there). -/
def inspectCmd (image tag : String) : String :=
  "docker manifest inspect " ++ (image ++ (":" ++ tag))

def tuPullCmd (image tag : String) : String :=
  "docker pull " ++ (image ++ (":" ++ tag))

def tuTagCmd (image src_tag dest_tag : String) : String :=
  "docker tag " ++ (image ++ (":" ++ (src_tag ++ (" " ++ (image ++ (":" ++ dest_tag))))))

def tuPushCmd (image tag : String) : String :=
  "docker push " ++ (image ++ (":" ++ tag))

/-- The source calls this helper `run` + `_cmd`; it shells out once and
raises `CalledProcessError` on a non-zero exit. -/
def runCmd (env : ExecEnv) (cmd : String) (tr : List Event) :
    List Event × Except String Unit :=
  (tr ++ [Event.exec cmd], env cmd (execCount tr cmd))

/-- `image_exists(registry, image, tag)` from scripts/tag_utils.py
(the `registry` parameter is unused in the source as well). -/
def image_exists (env : ExecEnv) (registry image tag : String) (tr : List Event) :
    List Event × Bool :=
  match runCmd env (inspectCmd image tag) tr with
  | (tr1, Except.ok _) => (tr1, true)
  | (tr1, Except.error _) => (tr1, false)

/--
Loop body of `retry(fn, attempts=RETRY_COUNT, delay=RETRY_DELAY)` from
scripts/tag_utils.py.  `fuel` is `attempts - i`; an attempt with
`i + 1 == attempts` (here `fuel = 1`) re-raises; otherwise it sleeps the
fixed `delay` and retries.  With `attempts = 0` the Python loop body
never runs and the function returns `None`.
-/
def retryGo (fn : List Event → List Event × Except String Unit) (delay : Nat) :
    Nat → List Event → List Event × Except String Unit
  | 0, tr => (tr, Except.ok ())
  | fuel + 1, tr =>
    match fn tr with
    | (tr1, Except.ok a) => (tr1, Except.ok a)
    | (tr1, Except.error e) =>
      match fuel with
      | 0 => (tr1, Except.error e)
      | _ + 1 => retryGo fn delay fuel (tr1 ++ [Event.sleep delay])

/-- `retry(fn, attempts=RETRY_COUNT, delay=RETRY_DELAY)` from scripts/tag_utils.py. -/
def retry (fn : List Event → List Event × Except String Unit)
    (attempts delay : Nat) (tr : List Event) : List Event × Except String Unit :=
  retryGo fn delay attempts tr

/-- Parsed CLI arguments of scripts/tag_utils.py (`--tag1`/`--tag2`
default to the empty string; `--dry-run` is a free-form string). -/
structure TagUtilsArgs where
  registry : String
  image : String
  strategy : String
  tag1 : String
  tag2 : String
  dry_run : String
deriving DecidableEq, Repr

/-- Tag selection in the tag_utils main function: strategy "latest" maps a
non-empty `tag1` to `latest`, else `latest` to `stable`; strategy "custom"
uses `tag1`/`tag2` verbatim. -/
def selectTags (args : TagUtilsArgs) : String × String :=
  if args.strategy = "latest" then
    if args.tag1 ≠ "" then (args.tag1, "latest") else ("latest", "stable")
  else (args.tag1, args.tag2)

/-- The `validate` closure in `main()`: raises when `image_exists` is false. -/
def validate (env : ExecEnv) (registry image src_tag : String) (tr : List Event) :
    List Event × Except String Unit :=
  match image_exists env registry image src_tag tr with
  | (tr1, true) => (tr1, Except.ok ())
  | (tr1, false) =>
    (tr1, Except.error ("Image " ++ image ++ ":" ++ src_tag ++ " not found in " ++ registry))

/-- The `promote` closure in `main()`: on dry-run it only logs and
returns; otherwise it pulls, tags and pushes (each a single shell-out via
`runCmd`, all three inside this one closure). -/
def promote (env : ExecEnv) (dry_run : Bool) (image src_tag dest_tag : String)
    (tr : List Event) : List Event × Except String Unit :=
  if dry_run then (tr, Except.ok ())
  else
    match runCmd env (tuPullCmd image src_tag) tr with
    | (tr1, Except.error e) => (tr1, Except.error e)
    | (tr1, Except.ok _) =>
      match runCmd env (tuTagCmd image src_tag dest_tag) tr1 with
      | (tr2, Except.error e) => (tr2, Except.error e)
      | (tr2, Except.ok _) => runCmd env (tuPushCmd image dest_tag) tr2

/--
Body of `main()` from scripts/tag_utils.py after argument parsing:
`retry(validate)` then `retry(promote)`.  Exceptions escaping a retry
(all attempts failed) propagate out of `main` uncaught, modelled by the
`Except.error` outcome.
-/
def tag_utils_main (env : ExecEnv) (args : TagUtilsArgs) (tr : List Event) :
    List Event × Except String Unit :=
  let dry_run : Bool := pyUpper args.dry_run = "YES"
  let tags := selectTags args
  match retry (validate env args.registry args.image tags.1) RETRY_COUNT RETRY_DELAY tr with
  | (tr1, Except.error e) => (tr1, Except.error e)
  | (tr1, Except.ok _) =>
    retry (promote env dry_run args.image tags.1 tags.2) RETRY_COUNT RETRY_DELAY tr1

/-! ## scripts/send_email.py

The filesystem is modelled by a map `fs : String → Option String` from
template name to content (`none` = `FileNotFoundError`), and `json.loads`
of the parameters JSON by an abstract decoder
`decode : String → Option (List (String × String))` (`none` =
`JSONDecodeError`; values are rendered to strings as the f-string does).
-/

def COMPANY_LOGO_URL : String := "http://yourcompany.com/logo.png"

/-- `load_template(template_name)`: read the template file, degrading a
`FileNotFoundError` to an inline HTML error message. -/
def load_template (fs : String → Option String) (template_name : String) : String :=
  match fs template_name with
  | some content => content
  | none => "<h1>Error: Template " ++ template_name ++ " not found!</h1>"

def statusString : Status → String
  | Status.SUCCESS => "SUCCESS"
  | Status.DRY_RUN_SUCCESS => "DRY_RUN_SUCCESS"
  | Status.FAILURE => "FAILURE"

/-- The status→color dict lookup (with default) in `create_results_table`. -/
def statusColor (status : String) : String :=
  if status = "SUCCESS" then "#d4edda"
  else if status = "DRY_RUN_SUCCESS" then "#fff3cd"
  else if status = "FAILURE" then "#f8d7da"
  else "#e2e3e5"

def resultRow (item : Result) : String :=
  let status := statusString item.status
  let color := statusColor status
  let tag_change := item.source ++ " &rarr; " ++ item.destination
  "\n            <tr style=\"background-color: " ++ color ++ ";\">\n                <td style=\"padding: 8px; border: 1px solid #ddd;\">" ++ item.image ++ "</td>\n                <td style=\"padding: 8px; border: 1px solid #ddd;\">" ++ tag_change ++ "</td>\n                <td style=\"padding: 8px; border: 1px solid #ddd;\"><strong>" ++ status ++ "</strong></td>\n                <td style=\"padding: 8px; border: 1px solid #ddd;\">" ++ item.message ++ "</td>\n            </tr>\n        "

def tableHeader : String :=
  "\n    <table style=\"width:100%; border-collapse: collapse; text-align: left;\">\n        <thead>\n            <tr style=\"background-color: #f2f2f2;\">\n                <th style=\"padding: 8px; border: 1px solid #ddd;\">Image Name</th>\n                <th style=\"padding: 8px; border: 1px solid #ddd;\">Tag Change</th>\n                <th style=\"padding: 8px; border: 1px solid #ddd;\">Status</th>\n                <th style=\"padding: 8px; border: 1px solid #ddd;\">Message</th>\n            </tr>\n        </thead>\n        <tbody>\n    "

/-- `create_results_table(results)` from scripts/send_email.py. -/
def create_results_table (results : List Result) : String :=
  (results.foldl (fun html item => html ++ resultRow item) tableHeader) ++ "</tbody></table>"

/-- The keys `print_parameters` keeps (the source skips every key *not*
in this list, despite the comment saying "exclude"). -/
def paramKeys : List String :=
  ["TICKET_NUMBER", "OPTIONAL_RECIPIENTS", "TAGGING_OPTION", "TAG_A_TYPE",
   "CUSTOM_SOURCE_TAG", "CUSTOM_TAG_SOURCE", "CUSTOM_TAG_DESTINATION",
   "REGISTRY_TYPE", "DRY_RUN", "IMAGES_TO_TAG"]

/-- Python `str.title()`: start of every alphabetic run upper-cased,
rest of the run lower-cased. -/
def pyTitle (s : String) : String :=
  (s.data.foldl (fun acc c =>
    let c2 := if c.isAlpha then (if acc.1 then c.toLower else c.toUpper) else c
    (c.isAlpha, acc.2.push c2)) (false, "")).2

/-- `print_parameters(params_json)` from scripts/send_email.py. -/
def print_parameters (decode : String → Option (List (String × String)))
    (params_json : String) : String :=
  match decode params_json with
  | none => "<div>Error decoding parameters: " ++ params_json ++ "</div>"
  | some params =>
    (params.foldl (fun html kv =>
      if paramKeys.contains kv.1 then
        html ++ "<li style=\x27margin-bottom: 5px;\x27><strong>" ++
          pyTitle (kv.1.replace "_" " ") ++ ":</strong> " ++ kv.2 ++ "</li>"
      else html)
      "<ul style=\x27list-style-type: none; padding-left: 0;\x27>") ++ "</ul>"

/-- The argparse arguments of scripts/send_email.py. -/
structure EmailArgs where
  status : String
  recipients : String
  log_file : String
  results_file : String
  jenkins_url : String
  release_link : String
  build_info : String
  dry_run_status : String
  parameters_json : String
deriving Repr

/-- Python link split on "/", last element (split of a string is never empty). -/
def lastSegment (link : String) : String :=
  (link.splitOn "/").getLastD ""

/-- The status badge f-string in `create_email_body`. -/
def statusBadge (primary_color status : String) : String :=
  "\n    <span style=\"display: inline-block; background-color: " ++ primary_color ++
    "; color: white; padding: 5px 10px; border-radius: 5px; font-weight: bold;\">\n        " ++
    pyUpper status ++ "\n    </span>\n    "

/-- The `replacements` dict of `create_email_body`, in insertion order. -/
def buildReplacements (decode : String → Option (List (String × String)))
    (args : EmailArgs) (results : List Result) (primary_color tag_line : String) :
    List (String × String) :=
  [("\x7b\x7bSTATUS_BADGE\x7d\x7d", statusBadge primary_color args.status),
   ("\x7b\x7bTAG_LINE\x7d\x7d", tag_line),
   ("\x7b\x7bTICKET_NUMBER\x7d\x7d", lastSegment args.release_link),
   ("\x7b\x7bRELEASE_NOTES_LINK\x7d\x7d", args.release_link),
   ("\x7b\x7bJENKINS_JOB_LINK\x7d\x7d", args.jenkins_url),
   ("\x7b\x7bIMAGE_RESULTS_TABLE\x7d\x7d", create_results_table results),
   ("\x7b\x7bPARAMETERS_LIST\x7d\x7d", print_parameters decode args.parameters_json),
   ("\x7b\x7bDRY_RUN_STATUS\x7d\x7d", args.dry_run_status),
   ("\x7b\x7bPRIMARY_COLOR\x7d\x7d", primary_color),
   ("\x7b\x7bCOMPANY_LOGO_URL\x7d\x7d", COMPANY_LOGO_URL),
   ("\x7b\x7bBUILD_INFO\x7d\x7d", args.build_info)]

/-- The placeholder-substitution loop of `create_email_body`. -/
def applyReplacements (replacements : List (String × String)) (template : String) : String :=
  replacements.foldl (fun body kv => body.replace kv.1 kv.2) template

/-- `create_email_body(args, results)` from scripts/send_email.py:
select template, subject tag and colors by overall status, substitute
the placeholders, and return `(subject, body)`. -/
def create_email_body (fs : String → Option String)
    (decode : String → Option (List (String × String)))
    (args : EmailArgs) (results : List Result) : String × String :=
  let branch :=
    if args.status = "SUCCESS" then
      (load_template fs "email_success.html", "SUCCESS", "#007bff", "Image Promotion Completed")
    else
      (load_template fs "email_failure.html", "FAILURE", "#dc3545", "Image Promotion Failed")
  let body := applyReplacements (buildReplacements decode args results branch.2.2.1 branch.2.2.2) branch.1
  ("[" ++ branch.2.1 ++ "] Docker Tagging Job: " ++ lastSegment args.release_link, body)

/-! ## Trace and counting lemmas -/

theorem execCount_append (tr1 tr2 : List Event) (d : String) :
    execCount (tr1 ++ tr2) d = execCount tr1 d + execCount tr2 d :=
  List.countP_append _ _ _

theorem execCount_exec_self (tr : List Event) (c : String) :
    execCount (tr ++ [Event.exec c]) c = execCount tr c + 1 := by
  simp [execCount, List.countP_append, List.countP_cons, isExecOf]

theorem execCount_exec_other (tr : List Event) (c d : String) (h : d ≠ c) :
    execCount (tr ++ [Event.exec c]) d = execCount tr d := by
  have hcd : (c == d) = false := beq_eq_false_iff_ne.mpr (Ne.symm h)
  simp [execCount, List.countP_append, List.countP_cons, isExecOf, hcd]

theorem execCount_sleep (tr : List Event) (k : Nat) (d : String) :
    execCount (tr ++ [Event.sleep k]) d = execCount tr d := by
  simp [execCount, List.countP_append, List.countP_cons, isExecOf]

theorem execCount_le_append (tr ex : List Event) (d : String) :
    execCount tr d ≤ execCount (tr ++ ex) d := by
  rw [execCount_append]; omega

theorem sleepDurations_append (tr1 tr2 : List Event) :
    sleepDurations (tr1 ++ tr2) = sleepDurations tr1 ++ sleepDurations tr2 :=
  List.filterMap_append _ _ _

/-- Two string concatenations differ whenever their first components
differ somewhere inside the shared length. -/
theorem append_ne_of_take_ne (p q : String) (n : Nat)
    (hp : n ≤ p.data.length) (hq : n ≤ q.data.length)
    (hne : p.data.take n ≠ q.data.take n) :
    ∀ a b : String, p ++ a ≠ q ++ b := by
  intro a b h
  apply hne
  have hd : p.data ++ a.data = q.data ++ b.data := by
    have h2 := congrArg String.data h
    rwa [String.data_append, String.data_append] at h2
  have h3 := congrArg (List.take n) hd
  rwa [List.take_append_of_le_length hp, List.take_append_of_le_length hq] at h3

theorem pullCmd_ne_tagCmd (i s i2 s2 d2 : String) : pullCmd i s ≠ tagCmd i2 s2 d2 :=
  append_ne_of_take_ne "docker pull " "docker tag " 8 (by decide) (by decide) (by decide) _ _

theorem pullCmd_ne_pushCmd (i s i2 d2 : String) : pullCmd i s ≠ pushCmd i2 d2 :=
  append_ne_of_take_ne "docker pull " "docker push " 10 (by decide) (by decide) (by decide) _ _

theorem tagCmd_ne_pushCmd (i s d i2 d2 : String) : tagCmd i s d ≠ pushCmd i2 d2 :=
  append_ne_of_take_ne "docker tag " "docker push " 8 (by decide) (by decide) (by decide) _ _

theorem inspectCmd_ne_tuPullCmd (i t i2 t2 : String) : inspectCmd i t ≠ tuPullCmd i2 t2 :=
  append_ne_of_take_ne "docker manifest inspect " "docker pull " 8 (by decide) (by decide)
    (by decide) _ _

theorem inspectCmd_ne_tuTagCmd (i t i2 s2 d2 : String) : inspectCmd i t ≠ tuTagCmd i2 s2 d2 :=
  append_ne_of_take_ne "docker manifest inspect " "docker tag " 8 (by decide) (by decide)
    (by decide) _ _

theorem inspectCmd_ne_tuPushCmd (i t i2 t2 : String) : inspectCmd i t ≠ tuPushCmd i2 t2 :=
  append_ne_of_take_ne "docker manifest inspect " "docker push " 8 (by decide) (by decide)
    (by decide) _ _

theorem tuPullCmd_ne_tuTagCmd (i s i2 s2 d2 : String) : tuPullCmd i s ≠ tuTagCmd i2 s2 d2 :=
  append_ne_of_take_ne "docker pull " "docker tag " 8 (by decide) (by decide) (by decide) _ _

theorem tuPullCmd_ne_tuPushCmd (i s i2 d2 : String) : tuPullCmd i s ≠ tuPushCmd i2 d2 :=
  append_ne_of_take_ne "docker pull " "docker push " 10 (by decide) (by decide) (by decide) _ _

theorem tuTagCmd_ne_tuPushCmd (i s d i2 d2 : String) : tuTagCmd i s d ≠ tuPushCmd i2 d2 :=
  append_ne_of_take_ne "docker tag " "docker push " 8 (by decide) (by decide) (by decide) _ _

/-! ## Unfolding lemmas for the retry loops -/

theorem retryCommandGo_step (env : ExecEnv) (c : String) (fuel attempt : Nat) (tr : List Event) :
    retryCommandGo env c (fuel + 1) attempt tr =
      match env c (execCount tr c) with
      | Except.ok _ => (tr ++ [Event.exec c], Except.ok true)
      | Except.error e =>
        match fuel with
        | 0 => (tr ++ [Event.exec c], Except.error e)
        | _ + 1 =>
          retryCommandGo env c fuel (attempt + 1)
            ((tr ++ [Event.exec c]) ++ [Event.sleep (2 ^ attempt)]) := rfl

theorem retryGo_step (fn : List Event → List Event × Except String Unit)
    (delay fuel : Nat) (tr : List Event) :
    retryGo fn delay (fuel + 1) tr =
      match fn tr with
      | (tr1, Except.ok a) => (tr1, Except.ok a)
      | (tr1, Except.error e) =>
        match fuel with
        | 0 => (tr1, Except.error e)
        | _ + 1 => retryGo fn delay fuel (tr1 ++ [Event.sleep delay]) := rfl

/-- Trace produced by a `retry_command` loop all of whose attempts fail:
one `exec` per attempt, with the exponential backoff sleeps in between. -/
def failTrace (c : String) : Nat → Nat → List Event
  | _, 0 => []
  | _, 1 => [Event.exec c]
  | attempt, fuel + 2 =>
    Event.exec c :: Event.sleep (2 ^ attempt) :: failTrace c (attempt + 1) (fuel + 1)

theorem retryCommandGo_all_fail (env : ExecEnv) (c : String)
    (hfail : ∀ k, ∃ e, env c k = Except.error e) :
    ∀ fuel attempt tr, 1 ≤ fuel →
      (retryCommandGo env c fuel attempt tr).1 = tr ++ failTrace c attempt fuel ∧
      isErr (retryCommandGo env c fuel attempt tr).2 = true := by
  intro fuel
  induction fuel with
  | zero => intro attempt tr h; omega
  | succ f ih =>
    intro attempt tr _
    obtain ⟨e, he⟩ := hfail (execCount tr c)
    rw [retryCommandGo_step, he]
    cases f with
    | zero => exact ⟨rfl, rfl⟩
    | succ f2 =>
      have h2 := ih (attempt + 1) ((tr ++ [Event.exec c]) ++ [Event.sleep (2 ^ attempt)])
        (by omega)
      refine ⟨?_, h2.2⟩
      rw [h2.1]
      simp [failTrace, List.append_assoc]

theorem failTrace_three (c : String) :
    failTrace c 0 3 =
      [Event.exec c, Event.sleep 1, Event.exec c, Event.sleep 2, Event.exec c] := rfl

theorem retryCommandGo_count_other (env : ExecEnv) (c d : String) (h : d ≠ c) :
    ∀ fuel attempt tr,
      execCount (retryCommandGo env c fuel attempt tr).1 d = execCount tr d := by
  intro fuel
  induction fuel with
  | zero => intro attempt tr; rfl
  | succ f ih =>
    intro attempt tr
    rw [retryCommandGo_step]
    cases henv : env c (execCount tr c) with
    | ok u => simp [execCount_exec_other _ _ _ h]
    | error e =>
      cases f with
      | zero => simp [execCount_exec_other _ _ _ h]
      | succ f2 =>
        rw [ih, execCount_sleep, execCount_exec_other _ _ _ h]

theorem retryCommandGo_count_self_ge (env : ExecEnv) (c : String) :
    ∀ fuel attempt tr, 1 ≤ fuel →
      execCount tr c + 1 ≤ execCount (retryCommandGo env c fuel attempt tr).1 c := by
  intro fuel
  induction fuel with
  | zero => intro attempt tr h; omega
  | succ f ih =>
    intro attempt tr _
    rw [retryCommandGo_step]
    cases henv : env c (execCount tr c) with
    | ok u => rw [execCount_exec_self]
    | error e =>
      cases f with
      | zero => rw [execCount_exec_self]
      | succ f2 =>
        dsimp only
        have h2 := ih (attempt + 1) ((tr ++ [Event.exec c]) ++ [Event.sleep (2 ^ attempt)])
          (by omega)
        rw [execCount_sleep, execCount_exec_self] at h2
        omega

theorem retryCommandGo_trace_ext (env : ExecEnv) (c : String) :
    ∀ fuel attempt tr, ∃ ex, (retryCommandGo env c fuel attempt tr).1 = tr ++ ex := by
  intro fuel
  induction fuel with
  | zero => intro attempt tr; exact ⟨[], (List.append_nil tr).symm⟩
  | succ f ih =>
    intro attempt tr
    rw [retryCommandGo_step]
    cases henv : env c (execCount tr c) with
    | ok u => exact ⟨[Event.exec c], rfl⟩
    | error e =>
      cases f with
      | zero => exact ⟨[Event.exec c], rfl⟩
      | succ f2 =>
        obtain ⟨ex, hex⟩ := ih (attempt + 1) ((tr ++ [Event.exec c]) ++ [Event.sleep (2 ^ attempt)])
        exact ⟨[Event.exec c] ++ [Event.sleep (2 ^ attempt)] ++ ex, by
          rw [hex]; simp [List.append_assoc]⟩

/-- If the first `j` attempts fail and attempt `j` (0-based) succeeds,
the loop stops right there: `j + 1` invocations in total. -/
theorem retryCommandGo_ok_at (env : ExecEnv) (c : String) :
    ∀ j fuel attempt tr, j < fuel →
      (∀ m, m < j → ∃ e, env c (execCount tr c + m) = Except.error e) →
      env c (execCount tr c + j) = Except.ok () →
      (retryCommandGo env c fuel attempt tr).2 = Except.ok true ∧
      execCount (retryCommandGo env c fuel attempt tr).1 c = execCount tr c + (j + 1) := by
  intro j
  induction j with
  | zero =>
    intro fuel attempt tr hj hfail hok
    rw [Nat.add_zero] at hok
    cases fuel with
    | zero => omega
    | succ f =>
      rw [retryCommandGo_step, hok]
      exact ⟨rfl, execCount_exec_self tr c⟩
  | succ j ih =>
    intro fuel attempt tr hj hfail hok
    cases fuel with
    | zero => omega
    | succ f =>
      obtain ⟨e, he⟩ := by
        have h0 := hfail 0 (by omega)
        rwa [Nat.add_zero] at h0
      rw [retryCommandGo_step, he]
      cases f with
      | zero => omega
      | succ f2 =>
        have hcnt : execCount ((tr ++ [Event.exec c]) ++ [Event.sleep (2 ^ attempt)]) c =
            execCount tr c + 1 := by rw [execCount_sleep, execCount_exec_self]
        have hfail2 : ∀ m, m < j →
            ∃ e2, env c (execCount ((tr ++ [Event.exec c]) ++ [Event.sleep (2 ^ attempt)]) c + m) =
              Except.error e2 := by
          intro m hm
          rw [hcnt, Nat.add_assoc, Nat.add_comm 1 m]
          exact hfail (m + 1) (by omega)
        have hok2 : env c
            (execCount ((tr ++ [Event.exec c]) ++ [Event.sleep (2 ^ attempt)]) c + j) =
            Except.ok () := by
          rw [hcnt, Nat.add_assoc, Nat.add_comm 1 j]
          exact hok
        have h2 := ih (f2 + 1) (attempt + 1) ((tr ++ [Event.exec c]) ++ [Event.sleep (2 ^ attempt)])
          (by omega) hfail2 hok2
        refine ⟨h2.1, ?_⟩
        rw [h2.2, hcnt]
        omega

/-! ## Lemmas about the tag_utils closures and retry loop -/

theorem validate_run (env : ExecEnv) (r i t : String) (tr : List Event) :
    validate env r i t tr =
      (tr ++ [Event.exec (inspectCmd i t)],
       match env (inspectCmd i t) (execCount tr (inspectCmd i t)) with
       | Except.ok _ => Except.ok ()
       | Except.error _ =>
         Except.error ("Image " ++ i ++ ":" ++ t ++ " not found in " ++ r)) := by
  unfold validate image_exists runCmd
  cases env (inspectCmd i t) (execCount tr (inspectCmd i t)) <;> rfl

/-- Trace produced by a `retry(fn)` loop whose attempts all fail, when
each attempt appends exactly one `exec c`: fixed-delay sleeps between. -/
def tuFailTrace (c : String) (delay : Nat) : Nat → List Event
  | 0 => []
  | 1 => [Event.exec c]
  | fuel + 2 => Event.exec c :: Event.sleep delay :: tuFailTrace c delay (fuel + 1)

theorem tuFailTrace_three (c : String) (delay : Nat) :
    tuFailTrace c delay 3 =
      [Event.exec c, Event.sleep delay, Event.exec c, Event.sleep delay, Event.exec c] := rfl

theorem retryGo_validate_all_fail (env : ExecEnv) (r i t : String)
    (hfail : ∀ k, ∃ e, env (inspectCmd i t) k = Except.error e) (delay : Nat) :
    ∀ fuel tr, 1 ≤ fuel →
      (retryGo (validate env r i t) delay fuel tr).1 =
        tr ++ tuFailTrace (inspectCmd i t) delay fuel ∧
      isErr (retryGo (validate env r i t) delay fuel tr).2 = true := by
  intro fuel
  induction fuel with
  | zero => intro tr h; omega
  | succ f ih =>
    intro tr _
    obtain ⟨e, he⟩ := hfail (execCount tr (inspectCmd i t))
    rw [retryGo_step, validate_run, he]
    cases f with
    | zero => exact ⟨rfl, rfl⟩
    | succ f2 =>
      have h2 := ih ((tr ++ [Event.exec (inspectCmd i t)]) ++ [Event.sleep delay]) (by omega)
      refine ⟨?_, h2.2⟩
      rw [h2.1]
      simp [tuFailTrace, List.append_assoc]

theorem retryGo_validate_count_other (env : ExecEnv) (r i t : String) (d : String)
    (h : d ≠ inspectCmd i t) (delay : Nat) :
    ∀ fuel tr,
      execCount (retryGo (validate env r i t) delay fuel tr).1 d = execCount tr d := by
  intro fuel
  induction fuel with
  | zero => intro tr; rfl
  | succ f ih =>
    intro tr
    rw [retryGo_step, validate_run]
    cases henv : env (inspectCmd i t) (execCount tr (inspectCmd i t)) with
    | ok u => simp [execCount_exec_other _ _ _ h]
    | error e =>
      cases f with
      | zero => simp [execCount_exec_other _ _ _ h]
      | succ f2 =>
        dsimp only
        rw [ih, execCount_sleep, execCount_exec_other _ _ _ h]

theorem retryGo_validate_count_self_ge (env : ExecEnv) (r i t : String) (delay : Nat) :
    ∀ fuel tr, 1 ≤ fuel →
      execCount tr (inspectCmd i t) + 1 ≤
        execCount (retryGo (validate env r i t) delay fuel tr).1 (inspectCmd i t) := by
  intro fuel
  induction fuel with
  | zero => intro tr h; omega
  | succ f ih =>
    intro tr _
    rw [retryGo_step, validate_run]
    cases henv : env (inspectCmd i t) (execCount tr (inspectCmd i t)) with
    | ok u => rw [execCount_exec_self]
    | error e =>
      cases f with
      | zero => rw [execCount_exec_self]
      | succ f2 =>
        dsimp only
        have h2 := ih ((tr ++ [Event.exec (inspectCmd i t)]) ++ [Event.sleep delay]) (by omega)
        rw [execCount_sleep, execCount_exec_self] at h2
        omega

/-- On dry-run, `promote` returns immediately without touching the trace,
so its whole retry loop is a no-op. -/
theorem retryGo_promote_dry (env : ExecEnv) (i s d : String) (delay fuel : Nat)
    (tr : List Event) (h : 1 ≤ fuel) :
    retryGo (promote env true i s d) delay fuel tr = (tr, Except.ok ()) := by
  cases fuel with
  | zero => omega
  | succ f => rw [retryGo_step]; rfl

theorem promote_trace_ext (env : ExecEnv) (dry : Bool) (i s d : String) (tr : List Event) :
    ∃ ex, (promote env dry i s d tr).1 = tr ++ ex := by
  cases dry with
  | true => exact ⟨[], (List.append_nil tr).symm⟩
  | false =>
    unfold promote runCmd
    cases h1 : env (tuPullCmd i s) (execCount tr (tuPullCmd i s)) with
    | error e => exact ⟨[Event.exec (tuPullCmd i s)], by simp [h1]⟩
    | ok u =>
      cases h2 : env (tuTagCmd i s d)
          (execCount (tr ++ [Event.exec (tuPullCmd i s)]) (tuTagCmd i s d)) with
      | error e =>
        exact ⟨[Event.exec (tuPullCmd i s), Event.exec (tuTagCmd i s d)], by
          simp [h1, h2, List.append_assoc]⟩
      | ok v =>
        refine ⟨[Event.exec (tuPullCmd i s), Event.exec (tuTagCmd i s d),
          Event.exec (tuPushCmd i d)], ?_⟩
        simp [h1, h2, List.append_assoc]

theorem retryGo_trace_ext (fn : List Event → List Event × Except String Unit)
    (hfn : ∀ tr, ∃ ex, (fn tr).1 = tr ++ ex) (delay : Nat) :
    ∀ fuel tr, ∃ ex, (retryGo fn delay fuel tr).1 = tr ++ ex := by
  intro fuel
  induction fuel with
  | zero => intro tr; exact ⟨[], (List.append_nil tr).symm⟩
  | succ f ih =>
    intro tr
    rw [retryGo_step]
    obtain ⟨ex1, hex1⟩ := hfn tr
    cases hfn2 : fn tr with
    | mk tr1 res =>
      have htr1 : tr1 = tr ++ ex1 := by
        have := congrArg Prod.fst hfn2
        simp at this
        rw [← this, hex1]
      cases res with
      | ok a => exact ⟨ex1, by simp [htr1]⟩
      | error e =>
        cases f with
        | zero => exact ⟨ex1, by simp [htr1]⟩
        | succ f2 =>
          obtain ⟨ex2, hex2⟩ := ih (tr1 ++ [Event.sleep delay])
          refine ⟨ex1 ++ [Event.sleep delay] ++ ex2, ?_⟩
          dsimp only
          rw [hex2, htr1]
          simp [List.append_assoc]

/-! ## Path lemmas for process_image -/

theorem process_image_pull_err (env : ExecEnv) (i s d dry : String) (tr tr1 : List Event)
    (e : String) (h1 : retry_command env (pullCmd i s) 3 tr = (tr1, Except.error e)) :
    process_image env i s d dry tr =
      (tr1, { image := i, source := s, destination := d,
              status := Status.FAILURE, message := e }) := by
  unfold process_image
  rw [h1]

theorem process_image_tag_err (env : ExecEnv) (i s d dry : String)
    (tr tr1 tr2 : List Event) (u : Bool) (e : String)
    (h1 : retry_command env (pullCmd i s) 3 tr = (tr1, Except.ok u))
    (h2 : retry_command env (tagCmd i s d) 3 tr1 = (tr2, Except.error e)) :
    process_image env i s d dry tr =
      (tr2, { image := i, source := s, destination := d,
              status := Status.FAILURE, message := e }) := by
  unfold process_image
  rw [h1]
  dsimp only
  rw [h2]

theorem process_image_dry (env : ExecEnv) (i s d dry : String)
    (tr tr1 tr2 : List Event) (u v : Bool)
    (hd : dry ≠ "NO")
    (h1 : retry_command env (pullCmd i s) 3 tr = (tr1, Except.ok u))
    (h2 : retry_command env (tagCmd i s d) 3 tr1 = (tr2, Except.ok v)) :
    process_image env i s d dry tr =
      (tr2, { image := i, source := s, destination := d,
              status := Status.DRY_RUN_SUCCESS,
              message := "Image successfully tagged (Dry Run)." }) := by
  unfold process_image
  rw [h1]
  dsimp only
  rw [h2]
  dsimp only
  rw [if_neg hd]

theorem process_image_push_err (env : ExecEnv) (i s d : String)
    (tr tr1 tr2 tr3 : List Event) (u v : Bool) (e : String)
    (h1 : retry_command env (pullCmd i s) 3 tr = (tr1, Except.ok u))
    (h2 : retry_command env (tagCmd i s d) 3 tr1 = (tr2, Except.ok v))
    (h3 : retry_command env (pushCmd i d) 3 tr2 = (tr3, Except.error e)) :
    process_image env i s d "NO" tr =
      (tr3, { image := i, source := s, destination := d,
              status := Status.FAILURE, message := e }) := by
  unfold process_image
  rw [h1]
  dsimp only
  rw [h2]
  dsimp only
  rw [if_pos rfl, h3]

theorem process_image_push_ok (env : ExecEnv) (i s d : String)
    (tr tr1 tr2 tr3 : List Event) (u v w : Bool)
    (h1 : retry_command env (pullCmd i s) 3 tr = (tr1, Except.ok u))
    (h2 : retry_command env (tagCmd i s d) 3 tr1 = (tr2, Except.ok v))
    (h3 : retry_command env (pushCmd i d) 3 tr2 = (tr3, Except.ok w)) :
    process_image env i s d "NO" tr =
      (tr3, { image := i, source := s, destination := d,
              status := Status.SUCCESS,
              message := "Image successfully tagged and pushed." }) := by
  unfold process_image
  rw [h1]
  dsimp only
  rw [h2]
  dsimp only
  rw [if_pos rfl, h3]

/-! ## Concrete environments used by witnesses and counterexamples -/

/-- Every command invocation fails with message "boom". -/
def envFail : ExecEnv := fun _ _ => Except.error "boom"

/-- Every command invocation succeeds. -/
def envOk : ExecEnv := fun _ _ => Except.ok ()

/-- Every command fails on its first invocation and succeeds afterwards. -/
def envRetryOnce : ExecEnv := fun _ k =>
  if k = 0 then Except.error "transient" else Except.ok ()

/-- Pull and tag always succeed; the push of img:b fails once, then succeeds. -/
def envPushFlaky : ExecEnv := fun c k =>
  if c = tuPushCmd "img" "b" then
    (if k = 0 then Except.error "push failed" else Except.ok ())
  else Except.ok ()

/-- Every command succeeds except the fabfile tag of svc latest to stable,
which always fails. -/
def envTagFail : ExecEnv := fun c _ =>
  if c = tagCmd "svc" "latest" "stable" then Except.error "tag boom" else Except.ok ()

/-! ## Claims -/

/-- C1: every `process_image` call returns exactly one result, whose status is
SUCCESS, DRY_RUN_SUCCESS or FAILURE; an exception raised by the pull, tag or
push step is caught and recorded as a FAILURE result carrying the error
message — never dropped and never propagated to the caller. -/
theorem promote_result_C1 (env : ExecEnv) (i s d dry : String) (tr : List Event) :
    ((process_image env i s d dry tr).2.status = Status.SUCCESS ∨
     (process_image env i s d dry tr).2.status = Status.DRY_RUN_SUCCESS ∨
     (process_image env i s d dry tr).2.status = Status.FAILURE) ∧
    (∀ tr1 e, retry_command env (pullCmd i s) 3 tr = (tr1, Except.error e) →
      (process_image env i s d dry tr).2 = ⟨i, s, d, Status.FAILURE, e⟩) ∧
    (∀ tr1 u tr2 e, retry_command env (pullCmd i s) 3 tr = (tr1, Except.ok u) →
      retry_command env (tagCmd i s d) 3 tr1 = (tr2, Except.error e) →
      (process_image env i s d dry tr).2 = ⟨i, s, d, Status.FAILURE, e⟩) ∧
    (∀ tr1 u tr2 v tr3 e, dry = "NO" →
      retry_command env (pullCmd i s) 3 tr = (tr1, Except.ok u) →
      retry_command env (tagCmd i s d) 3 tr1 = (tr2, Except.ok v) →
      retry_command env (pushCmd i d) 3 tr2 = (tr3, Except.error e) →
      (process_image env i s d dry tr).2 = ⟨i, s, d, Status.FAILURE, e⟩) := by
  refine ⟨?_, ?_, ?_, ?_⟩
  · cases h : (process_image env i s d dry tr).2.status with
    | SUCCESS => exact Or.inl rfl
    | DRY_RUN_SUCCESS => exact Or.inr (Or.inl rfl)
    | FAILURE => exact Or.inr (Or.inr rfl)
  · intro tr1 e h1
    rw [process_image_pull_err env i s d dry tr tr1 e h1]
  · intro tr1 u tr2 e h1 h2
    rw [process_image_tag_err env i s d dry tr tr1 tr2 u e h1 h2]
  · intro tr1 u tr2 v tr3 e hdry h1 h2 h3
    subst hdry
    rw [process_image_push_err env i s d tr tr1 tr2 tr3 u v e h1 h2 h3]

/-- Witness for C1: with every command failing, the pull error "boom" is
recorded as the message of the FAILURE result. -/
theorem promote_result_C1_witness :
    (process_image envFail "svc" "latest" "stable" "NO" []).2 =
      ⟨"svc", "latest", "stable", Status.FAILURE, "boom"⟩ :=
  (promote_result_C1 envFail "svc" "latest" "stable" "NO" []).2.1
    [Event.exec (pullCmd "svc" "latest"), Event.sleep 1, Event.exec (pullCmd "svc" "latest"),
     Event.sleep 2, Event.exec (pullCmd "svc" "latest")] "boom" rfl

/-- C2: with dry-run set (fabfile: dry_run differs from "NO"; tag_utils: the dry-run flag
upper-casing to YES) the push command is never invoked, and the fabfile
result is DRY_RUN_SUCCESS when pull and tag succeed, FAILURE when an
earlier step fails. -/
theorem dry_run_skip_C2 (env : ExecEnv) (i s d dry : String) (tr : List Event)
    (env2 : ExecEnv) (args : TagUtilsArgs) (tr0 : List Event) (img t : String)
    (hdry : dry ≠ "NO") (hyes : pyUpper args.dry_run = "YES") :
    execCount (process_image env i s d dry tr).1 (pushCmd i d) =
      execCount tr (pushCmd i d) ∧
    ((process_image env i s d dry tr).2.status = Status.DRY_RUN_SUCCESS ∨
     (process_image env i s d dry tr).2.status = Status.FAILURE) ∧
    (∀ tr1 u tr2 v, retry_command env (pullCmd i s) 3 tr = (tr1, Except.ok u) →
      retry_command env (tagCmd i s d) 3 tr1 = (tr2, Except.ok v) →
      (process_image env i s d dry tr).2.status = Status.DRY_RUN_SUCCESS) ∧
    (∀ tr1 e, retry_command env (pullCmd i s) 3 tr = (tr1, Except.error e) →
      (process_image env i s d dry tr).2.status = Status.FAILURE) ∧
    (∀ tr1 u tr2 e, retry_command env (pullCmd i s) 3 tr = (tr1, Except.ok u) →
      retry_command env (tagCmd i s d) 3 tr1 = (tr2, Except.error e) →
      (process_image env i s d dry tr).2.status = Status.FAILURE) ∧
    execCount (tag_utils_main env2 args tr0).1 (tuPushCmd img t) =
      execCount tr0 (tuPushCmd img t) := by
  have hpp : pushCmd i d ≠ pullCmd i s := (pullCmd_ne_pushCmd i s i d).symm
  have hpt : pushCmd i d ≠ tagCmd i s d := (tagCmd_ne_pushCmd i s d i d).symm
  refine ⟨?_, ?_, ?_, ?_, ?_, ?_⟩
  · cases h1 : retry_command env (pullCmd i s) 3 tr with
    | mk tr1 rp =>
      have htr1 : tr1 = (retryCommandGo env (pullCmd i s) 3 0 tr).1 :=
        (congrArg Prod.fst h1).symm
      cases rp with
      | error e =>
        rw [process_image_pull_err env i s d dry tr tr1 e h1, htr1,
          retryCommandGo_count_other env (pullCmd i s) (pushCmd i d) hpp]
      | ok u =>
        cases h2 : retry_command env (tagCmd i s d) 3 tr1 with
        | mk tr2 rt =>
          have htr2 : tr2 = (retryCommandGo env (tagCmd i s d) 3 0 tr1).1 :=
            (congrArg Prod.fst h2).symm
          cases rt with
          | error e =>
            rw [process_image_tag_err env i s d dry tr tr1 tr2 u e h1 h2, htr2,
              retryCommandGo_count_other env (tagCmd i s d) (pushCmd i d) hpt, htr1,
              retryCommandGo_count_other env (pullCmd i s) (pushCmd i d) hpp]
          | ok v =>
            rw [process_image_dry env i s d dry tr tr1 tr2 u v hdry h1 h2, htr2,
              retryCommandGo_count_other env (tagCmd i s d) (pushCmd i d) hpt, htr1,
              retryCommandGo_count_other env (pullCmd i s) (pushCmd i d) hpp]
  · cases h1 : retry_command env (pullCmd i s) 3 tr with
    | mk tr1 rp =>
      cases rp with
      | error e =>
        rw [process_image_pull_err env i s d dry tr tr1 e h1]
        exact Or.inr rfl
      | ok u =>
        cases h2 : retry_command env (tagCmd i s d) 3 tr1 with
        | mk tr2 rt =>
          cases rt with
          | error e =>
            rw [process_image_tag_err env i s d dry tr tr1 tr2 u e h1 h2]
            exact Or.inr rfl
          | ok v =>
            rw [process_image_dry env i s d dry tr tr1 tr2 u v hdry h1 h2]
            exact Or.inl rfl
  · intro tr1 u tr2 v h1 h2
    rw [process_image_dry env i s d dry tr tr1 tr2 u v hdry h1 h2]
  · intro tr1 e h1
    rw [process_image_pull_err env i s d dry tr tr1 e h1]
  · intro tr1 u tr2 e h1 h2
    rw [process_image_tag_err env i s d dry tr tr1 tr2 u e h1 h2]
  · have hpi : tuPushCmd img t ≠ inspectCmd args.image (selectTags args).1 :=
      (inspectCmd_ne_tuPushCmd args.image (selectTags args).1 img t).symm
    unfold tag_utils_main
    dsimp only
    cases hv : retry (validate env2 args.registry args.image (selectTags args).1)
        RETRY_COUNT RETRY_DELAY tr0 with
    | mk tr1 rv =>
      have htr1 : tr1 = (retryGo (validate env2 args.registry args.image (selectTags args).1)
          RETRY_DELAY RETRY_COUNT tr0).1 := (congrArg Prod.fst hv).symm
      have hcnt1 : execCount tr1 (tuPushCmd img t) = execCount tr0 (tuPushCmd img t) := by
        rw [htr1, retryGo_validate_count_other env2 args.registry args.image
          (selectTags args).1 (tuPushCmd img t) hpi RETRY_DELAY]
      cases rv with
      | error e => exact hcnt1
      | ok u =>
        dsimp only
        rw [hyes]
        rw [show (decide (("YES" : String) = "YES")) = true from rfl]
        rw [show retry (promote env2 true args.image (selectTags args).1 (selectTags args).2)
            RETRY_COUNT RETRY_DELAY tr1 = (tr1, Except.ok ()) from
          retryGo_promote_dry env2 args.image (selectTags args).1 (selectTags args).2
            RETRY_DELAY RETRY_COUNT tr1 (by decide)]
        exact hcnt1

/-- Witness for C2: a request with dry_run "YES" never pushes and ends in
DRY_RUN_SUCCESS; under dry-run a failing pull or a failing tag yields a
FAILURE result; a tag_utils run with --dry-run "yes" records no push. -/
theorem dry_run_skip_C2_witness :
    execCount (process_image envOk "svc" "latest" "stable" "YES" []).1
      (pushCmd "svc" "stable") = 0 ∧
    (process_image envOk "svc" "latest" "stable" "YES" []).2.status =
      Status.DRY_RUN_SUCCESS ∧
    (process_image envFail "svc" "latest" "stable" "YES" []).2.status =
      Status.FAILURE ∧
    (process_image envTagFail "svc" "latest" "stable" "YES" []).2.status =
      Status.FAILURE ∧
    execCount (tag_utils_main envOk ⟨"reg", "img", "custom", "a", "b", "yes"⟩ []).1
      (tuPushCmd "img" "b") = 0 := by
  have h := dry_run_skip_C2 envOk "svc" "latest" "stable" "YES" [] envOk
    ⟨"reg", "img", "custom", "a", "b", "yes"⟩ [] "img" "b" (by decide) (by decide)
  have hf := dry_run_skip_C2 envFail "svc" "latest" "stable" "YES" [] envOk
    ⟨"reg", "img", "custom", "a", "b", "yes"⟩ [] "img" "b" (by decide) (by decide)
  have ht := dry_run_skip_C2 envTagFail "svc" "latest" "stable" "YES" [] envOk
    ⟨"reg", "img", "custom", "a", "b", "yes"⟩ [] "img" "b" (by decide) (by decide)
  refine ⟨h.1, ?_, ?_, ?_, h.2.2.2.2.2⟩
  · exact h.2.2.1 [Event.exec (pullCmd "svc" "latest")] true
      [Event.exec (pullCmd "svc" "latest"), Event.exec (tagCmd "svc" "latest" "stable")]
      true rfl rfl
  · exact hf.2.2.2.1
      [Event.exec (pullCmd "svc" "latest"), Event.sleep 1,
       Event.exec (pullCmd "svc" "latest"), Event.sleep 2,
       Event.exec (pullCmd "svc" "latest")] "boom" rfl
  · exact ht.2.2.2.2.1 [Event.exec (pullCmd "svc" "latest")] true
      [Event.exec (pullCmd "svc" "latest"), Event.exec (tagCmd "svc" "latest" "stable"),
       Event.sleep 1, Event.exec (tagCmd "svc" "latest" "stable"), Event.sleep 2,
       Event.exec (tagCmd "svc" "latest" "stable")] "tag boom" rfl rfl

/-- C3: a step whose command fails on every attempt invokes the command
exactly 3 times (the max attempts in both implementations) and then
propagates the failure; a step whose command succeeds at attempt `j`
(after `j` failures) invokes it exactly `j + 1` times and stops. -/
theorem retry_bound_C3 (env envb env3 : ExecEnv) (c cb : String)
    (tr trb tr3 : List Event) (r i t : String) (j : Nat)
    (ha : ∀ k, ∃ e, env c k = Except.error e)
    (hb1 : j < 3)
    (hb2 : ∀ m, m < j → ∃ e, envb cb (execCount trb cb + m) = Except.error e)
    (hb3 : envb cb (execCount trb cb + j) = Except.ok ())
    (hc : ∀ k, ∃ e, env3 (inspectCmd i t) k = Except.error e) :
    (isErr (retry_command env c 3 tr).2 = true ∧
     execCount (retry_command env c 3 tr).1 c = execCount tr c + 3) ∧
    ((retry_command envb cb 3 trb).2 = Except.ok true ∧
     execCount (retry_command envb cb 3 trb).1 cb = execCount trb cb + (j + 1)) ∧
    (isErr (retry (validate env3 r i t) RETRY_COUNT RETRY_DELAY tr3).2 = true ∧
     execCount (retry (validate env3 r i t) RETRY_COUNT RETRY_DELAY tr3).1 (inspectCmd i t) =
       execCount tr3 (inspectCmd i t) + RETRY_COUNT) := by
  have hcnt3 : ∀ (c2 : String),
      execCount [Event.exec c2, Event.sleep 1, Event.exec c2, Event.sleep 2, Event.exec c2]
        c2 = 3 := by
    intro c2
    simp [execCount, List.countP_cons, isExecOf]
  have hcnt5 : ∀ (c2 : String) (delay : Nat),
      execCount [Event.exec c2, Event.sleep delay, Event.exec c2, Event.sleep delay,
        Event.exec c2] c2 = 3 := by
    intro c2 delay
    simp [execCount, List.countP_cons, isExecOf]
  refine ⟨?_, ?_, ?_⟩
  · have h := retryCommandGo_all_fail env c ha 3 0 tr (by omega)
    refine ⟨h.2, ?_⟩
    rw [show (retry_command env c 3 tr).1 = (retryCommandGo env c 3 0 tr).1 from rfl,
      h.1, failTrace_three, execCount_append, hcnt3]
  · exact retryCommandGo_ok_at envb cb j 3 0 trb hb1 hb2 hb3
  · have h := retryGo_validate_all_fail env3 r i t hc RETRY_DELAY 3 tr3 (by omega)
    refine ⟨h.2, ?_⟩
    rw [show (retry (validate env3 r i t) RETRY_COUNT RETRY_DELAY tr3).1 =
        (retryGo (validate env3 r i t) RETRY_DELAY 3 tr3).1 from rfl,
      h.1, tuFailTrace_three, execCount_append, hcnt5]
    rfl

/-- Witness for C3: all-failing commands are attempted exactly 3 times; a
command failing once then succeeding is attempted exactly twice. -/
theorem retry_bound_C3_witness :
    (isErr (retry_command envFail "docker pull x" 3 []).2 = true ∧
     execCount (retry_command envFail "docker pull x" 3 []).1 "docker pull x" =
       execCount ([] : List Event) "docker pull x" + 3) ∧
    ((retry_command envRetryOnce "docker push x" 3 []).2 = Except.ok true ∧
     execCount (retry_command envRetryOnce "docker push x" 3 []).1 "docker push x" =
       execCount ([] : List Event) "docker push x" + (1 + 1)) ∧
    (isErr (retry (validate envFail "reg" "img" "t") RETRY_COUNT RETRY_DELAY []).2 = true ∧
     execCount (retry (validate envFail "reg" "img" "t") RETRY_COUNT RETRY_DELAY []).1
         (inspectCmd "img" "t") =
       execCount ([] : List Event) (inspectCmd "img" "t") + RETRY_COUNT) :=
  retry_bound_C3 envFail envRetryOnce envFail "docker pull x" "docker push x" [] [] []
    "reg" "img" "t" 1
    (fun _ => ⟨"boom", rfl⟩)
    (by omega)
    (fun m hm => by
      have hm0 : m = 0 := by omega
      subst hm0
      exact ⟨"transient", rfl⟩)
    rfl
    (fun _ => ⟨"boom", rfl⟩)

/-- C4: the job outcome raised by `tag_images` is Failure iff at least one
collected result has status FAILURE, and Success iff every result is
SUCCESS or DRY_RUN_SUCCESS; one result is collected for every task before
the overall check runs, and the outcome is exactly the overall check of
the full collected result list. -/
theorem aggregate_status_C4 (rs : List Result) (env : ExecEnv)
    (images dry_run : String) (st dt cst : Option String) (tr : List Event)
    (tasks : List (String × String × String × String)) :
    (isErr (overall_check rs) = true ↔ ∃ res ∈ rs, res.status = Status.FAILURE) ∧
    (overall_check rs = Except.ok () ↔
      ∀ res ∈ rs, res.status = Status.SUCCESS ∨ res.status = Status.DRY_RUN_SUCCESS) ∧
    (run_all env tasks tr).2.length = tasks.length ∧
    (tag_images env images dry_run "latest_to_stable" st dt cst tr).2.2 =
      overall_check (tag_images env images dry_run "latest_to_stable" st dt cst tr).2.1 := by
  refine ⟨?_, ?_, ?_, ?_⟩
  · unfold overall_check
    by_cases h : rs.any (fun res => res.status == Status.FAILURE)
    · rw [if_pos h]
      simp only [isErr, true_iff]
      obtain ⟨x, hx, hx2⟩ := List.any_eq_true.mp h
      exact ⟨x, hx, by simpa using hx2⟩
    · rw [if_neg h]
      constructor
      · intro hfalse; cases hfalse
      · rintro ⟨x, hx, hx2⟩
        exact absurd (List.any_eq_true.mpr ⟨x, hx, by simp [hx2]⟩) h
  · unfold overall_check
    by_cases h : rs.any (fun res => res.status == Status.FAILURE)
    · rw [if_pos h]
      constructor
      · intro hfalse; cases hfalse
      · intro hall
        obtain ⟨x, hx, hx2⟩ := List.any_eq_true.mp h
        have hf : x.status = Status.FAILURE := by simpa using hx2
        cases hall x hx with
        | inl h1 => rw [h1] at hf; cases hf
        | inr h1 => rw [h1] at hf; cases hf
    · rw [if_neg h]
      constructor
      · intro _ x hx
        cases hst : x.status with
        | SUCCESS => exact Or.inl rfl
        | DRY_RUN_SUCCESS => exact Or.inr rfl
        | FAILURE =>
          exact absurd (List.any_eq_true.mpr ⟨x, hx, by simp [hst]⟩) h
      · intro _; rfl
  · induction tasks generalizing tr with
    | nil => rfl
    | cons task rest ih =>
      unfold run_all
      dsimp only
      rw [List.length_cons, List.length_cons, ih]
  · unfold tag_images selectPromotionTags
    rw [if_pos rfl]

/-- Witness for C4: a singleton FAILURE list makes the aggregate outcome an
error, and a singleton DRY_RUN_SUCCESS list keeps it ok. -/
theorem aggregate_status_C4_witness :
    isErr (overall_check [⟨"a", "s", "d", Status.FAILURE, "m"⟩]) = true ∧
    overall_check [⟨"a", "s", "d", Status.DRY_RUN_SUCCESS, "m"⟩] = Except.ok () :=
  ⟨(aggregate_status_C4 [⟨"a", "s", "d", Status.FAILURE, "m"⟩] envOk "x" "YES"
      none none none [] []).1.mpr ⟨⟨"a", "s", "d", Status.FAILURE, "m"⟩, by simp, rfl⟩,
   (aggregate_status_C4 [⟨"a", "s", "d", Status.DRY_RUN_SUCCESS, "m"⟩] envOk "x" "YES"
      none none none [] []).2.1.mpr
     (by
       intro res hres
       rw [List.mem_singleton] at hres
       subst hres
       exact Or.inr rfl)⟩

/-- Counterexample for C5: within a single all-failing step of a single
fabfile request the two inter-attempt delays are 1s and 2s — two different
values — while tag_utils sleeps a fixed 5s; so the inter-attempt delay is
not one fixed process-wide constant. -/
theorem fixed_delay_C5_counterexample :
    sleepDurations (retry_command envFail "docker pull mycompanyrepo/svc:latest" 3 []).1 =
      [1, 2] ∧
    sleepDurations (retry (validate envFail "reg" "svc" "latest")
      RETRY_COUNT RETRY_DELAY []).1 = [5, 5] ∧
    (1 : Nat) ≠ 2 := by
  refine ⟨rfl, rfl, by omega⟩

/-- C5 amended: the delay before retry attempt `a + 1` is `2 ^ a` seconds
(exponential backoff, 1s then 2s) in `retry_command` of fabfile, and the
fixed process-wide constant `RETRY_DELAY = 5` seconds in `retry` of
tag_utils; the delays depend only on the attempt index, never on the
request. -/
theorem retry_delay_C5_amended (env : ExecEnv) (c : String) (tr : List Event)
    (env2 : ExecEnv) (r i t : String) (tr2 : List Event)
    (h1 : ∀ k, ∃ e, env c k = Except.error e)
    (h2 : ∀ k, ∃ e, env2 (inspectCmd i t) k = Except.error e) :
    sleepDurations (retry_command env c 3 tr).1 = sleepDurations tr ++ [2 ^ 0, 2 ^ 1] ∧
    sleepDurations (retry (validate env2 r i t) RETRY_COUNT RETRY_DELAY tr2).1 =
      sleepDurations tr2 ++ [RETRY_DELAY, RETRY_DELAY] ∧
    RETRY_DELAY = 5 := by
  refine ⟨?_, ?_, rfl⟩
  · have h := retryCommandGo_all_fail env c h1 3 0 tr (by omega)
    rw [show (retry_command env c 3 tr).1 = (retryCommandGo env c 3 0 tr).1 from rfl,
      h.1, failTrace_three, sleepDurations_append]
    rfl
  · have h := retryGo_validate_all_fail env2 r i t h2 RETRY_DELAY 3 tr2 (by omega)
    rw [show (retry (validate env2 r i t) RETRY_COUNT RETRY_DELAY tr2).1 =
        (retryGo (validate env2 r i t) RETRY_DELAY 3 tr2).1 from rfl,
      h.1, tuFailTrace_three, sleepDurations_append]
    rfl

/-- Witness for C5 amended, at the all-failing environment. -/
theorem retry_delay_C5_amended_witness :
    sleepDurations (retry_command envFail "docker tag a b" 3 []).1 =
      sleepDurations ([] : List Event) ++ [2 ^ 0, 2 ^ 1] ∧
    sleepDurations (retry (validate envFail "r2" "i2" "t2")
        RETRY_COUNT RETRY_DELAY []).1 =
      sleepDurations ([] : List Event) ++ [RETRY_DELAY, RETRY_DELAY] ∧
    RETRY_DELAY = 5 :=
  retry_delay_C5_amended envFail "docker tag a b" [] envFail "r2" "i2" "t2" []
    (fun _ => ⟨"boom", rfl⟩) (fun _ => ⟨"boom", rfl⟩)

/-- The pull command is executed only inside its own retry loop: the tag and
push phases of `process_image` never add pull invocations. -/
theorem process_image_count_eq_pull_phase (env : ExecEnv) (i s d dry : String)
    (tr : List Event) :
    execCount (process_image env i s d dry tr).1 (pullCmd i s) =
      execCount (retry_command env (pullCmd i s) 3 tr).1 (pullCmd i s) := by
  have hpt : pullCmd i s ≠ tagCmd i s d := pullCmd_ne_tagCmd i s i s d
  have hpp : pullCmd i s ≠ pushCmd i d := pullCmd_ne_pushCmd i s i d
  cases h1 : retry_command env (pullCmd i s) 3 tr with
  | mk tr1 rp =>
    cases rp with
    | error e => rw [process_image_pull_err env i s d dry tr tr1 e h1]
    | ok u =>
      cases h2 : retry_command env (tagCmd i s d) 3 tr1 with
      | mk tr2 rt =>
        have htr2 : execCount tr2 (pullCmd i s) = execCount tr1 (pullCmd i s) := by
          rw [show tr2 = (retryCommandGo env (tagCmd i s d) 3 0 tr1).1 from
              (congrArg Prod.fst h2).symm,
            retryCommandGo_count_other env (tagCmd i s d) (pullCmd i s) hpt]
        cases rt with
        | error e =>
          rw [process_image_tag_err env i s d dry tr tr1 tr2 u e h1 h2]
          exact htr2
        | ok v =>
          by_cases hd : dry = "NO"
          · subst hd
            cases h3 : retry_command env (pushCmd i d) 3 tr2 with
            | mk tr3 rq =>
              have htr3 : execCount tr3 (pullCmd i s) = execCount tr2 (pullCmd i s) := by
                rw [show tr3 = (retryCommandGo env (pushCmd i d) 3 0 tr2).1 from
                    (congrArg Prod.fst h3).symm,
                  retryCommandGo_count_other env (pushCmd i d) (pullCmd i s) hpp]
              cases rq with
              | error e =>
                rw [process_image_push_err env i s d tr tr1 tr2 tr3 u v e h1 h2 h3]
                exact htr3.trans htr2
              | ok w =>
                rw [process_image_push_ok env i s d tr tr1 tr2 tr3 u v w h1 h2 h3]
                exact htr3.trans htr2
          · rw [process_image_dry env i s d dry tr tr1 tr2 u v hd h1 h2]
            exact htr2

/-- The tag command is executed only inside its own retry loop: once the
pull phase has succeeded with trace `tr1`, the push phase never adds tag
invocations. -/
theorem process_image_count_eq_tag_phase (env : ExecEnv) (i s d dry : String)
    (tr tr1 : List Event) (u : Bool)
    (h1 : retry_command env (pullCmd i s) 3 tr = (tr1, Except.ok u)) :
    execCount (process_image env i s d dry tr).1 (tagCmd i s d) =
      execCount (retry_command env (tagCmd i s d) 3 tr1).1 (tagCmd i s d) := by
  have htp : tagCmd i s d ≠ pushCmd i d := tagCmd_ne_pushCmd i s d i d
  cases h2 : retry_command env (tagCmd i s d) 3 tr1 with
  | mk tr2 rt =>
    cases rt with
    | error e => rw [process_image_tag_err env i s d dry tr tr1 tr2 u e h1 h2]
    | ok v =>
      by_cases hd : dry = "NO"
      · subst hd
        cases h3 : retry_command env (pushCmd i d) 3 tr2 with
        | mk tr3 rq =>
          have htr3 : execCount tr3 (tagCmd i s d) = execCount tr2 (tagCmd i s d) := by
            rw [show tr3 = (retryCommandGo env (pushCmd i d) 3 0 tr2).1 from
                (congrArg Prod.fst h3).symm,
              retryCommandGo_count_other env (pushCmd i d) (tagCmd i s d) htp]
          cases rq with
          | error e =>
            rw [process_image_push_err env i s d tr tr1 tr2 tr3 u v e h1 h2 h3]
            exact htr3
          | ok w =>
            rw [process_image_push_ok env i s d tr tr1 tr2 tr3 u v w h1 h2 h3]
            exact htr3
      · rw [process_image_dry env i s d dry tr tr1 tr2 u v hd h1 h2]

/-- Counterexample for C6: a request with an EMPTY source tag is not
rejected: the pull (fabfile) / manifest-inspect (tag_utils) external
command is still invoked once with the malformed reference, and with a
succeeding registry the run even completes without a Failure. -/
theorem validation_C6_counterexample :
    execCount (process_image envOk "svc" "" "stable" "YES" []).1 (pullCmd "svc" "") = 1 ∧
    (process_image envOk "svc" "" "stable" "YES" []).2.status = Status.DRY_RUN_SUCCESS ∧
    execCount (tag_utils_main envOk ⟨"reg", "img", "custom", "", "", "YES"⟩ []).1
      (inspectCmd "img" "") = 1 ∧
    isErr (tag_utils_main envOk ⟨"reg", "img", "custom", "", "", "YES"⟩ []).2 = false :=
  ⟨rfl, rfl, rfl, rfl⟩

/-- C6 amended: empty tag values are NOT rejected up front — for every
environment, a fabfile request with an empty source tag still invokes the
pull command at least once, and a tag_utils run with strategy custom and
empty tags still invokes the manifest-inspect command at least once;
validation is delegated to those external commands themselves. -/
theorem empty_tag_C6_amended (env : ExecEnv) (i d dry : String) (tr : List Event)
    (env2 : ExecEnv) (reg i2 dry2 : String) (tr2 : List Event) :
    execCount tr (pullCmd i "") + 1 ≤
      execCount (process_image env i "" d dry tr).1 (pullCmd i "") ∧
    execCount tr2 (inspectCmd i2 "") + 1 ≤
      execCount (tag_utils_main env2 ⟨reg, i2, "custom", "", "", dry2⟩ tr2).1
        (inspectCmd i2 "") := by
  constructor
  · rw [process_image_count_eq_pull_phase env i "" d dry tr]
    exact retryCommandGo_count_self_ge env (pullCmd i "") 3 0 tr (by omega)
  · have hsel : selectTags ⟨reg, i2, "custom", "", "", dry2⟩ = ("", "") := rfl
    unfold tag_utils_main
    dsimp only
    rw [hsel]
    dsimp only
    cases hv : retry (validate env2 reg i2 "") RETRY_COUNT RETRY_DELAY tr2 with
    | mk tr1 rv =>
      have hge : execCount tr2 (inspectCmd i2 "") + 1 ≤ execCount tr1 (inspectCmd i2 "") := by
        rw [show tr1 = (retryGo (validate env2 reg i2 "") RETRY_DELAY RETRY_COUNT tr2).1 from
            (congrArg Prod.fst hv).symm]
        exact retryGo_validate_count_self_ge env2 reg i2 "" RETRY_DELAY RETRY_COUNT tr2
          (by decide)
      cases rv with
      | error e => exact hge
      | ok u =>
        dsimp only
        obtain ⟨ex, hex⟩ := retryGo_trace_ext
          (promote env2 (decide (pyUpper dry2 = "YES")) i2 "" "")
          (promote_trace_ext env2 (decide (pyUpper dry2 = "YES")) i2 "" "") RETRY_DELAY
          RETRY_COUNT tr1
        rw [show retry (promote env2 (decide (pyUpper dry2 = "YES")) i2 "" "")
            RETRY_COUNT RETRY_DELAY tr1 =
          retryGo (promote env2 (decide (pyUpper dry2 = "YES")) i2 "" "")
            RETRY_DELAY RETRY_COUNT tr1 from rfl, hex]
        exact le_trans hge (execCount_le_append tr1 ex (inspectCmd i2 ""))

/-- One full run of the non-dry `promote` closure: pull, then tag, then
push, each appending one invocation, stopping at the first failure. -/
theorem promote_run (env : ExecEnv) (i s d : String) (tr : List Event) :
    promote env false i s d tr =
      match env (tuPullCmd i s) (execCount tr (tuPullCmd i s)) with
      | Except.error e => (tr ++ [Event.exec (tuPullCmd i s)], Except.error e)
      | Except.ok _ =>
        match env (tuTagCmd i s d)
            (execCount (tr ++ [Event.exec (tuPullCmd i s)]) (tuTagCmd i s d)) with
        | Except.error e =>
          ((tr ++ [Event.exec (tuPullCmd i s)]) ++ [Event.exec (tuTagCmd i s d)],
           Except.error e)
        | Except.ok _ =>
          (((tr ++ [Event.exec (tuPullCmd i s)]) ++ [Event.exec (tuTagCmd i s d)]) ++
             [Event.exec (tuPushCmd i d)],
           env (tuPushCmd i d)
             (execCount ((tr ++ [Event.exec (tuPullCmd i s)]) ++
               [Event.exec (tuTagCmd i s d)]) (tuPushCmd i d))) := by
  unfold promote runCmd
  cases env (tuPullCmd i s) (execCount tr (tuPullCmd i s)) with
  | error e => rfl
  | ok u =>
    dsimp only
    cases env (tuTagCmd i s d)
        (execCount (tr ++ [Event.exec (tuPullCmd i s)]) (tuTagCmd i s d)) with
    | error e => rfl
    | ok v => rfl

theorem retryGo_three (fn : List Event → List Event × Except String Unit)
    (delay : Nat) (tr : List Event) :
    retryGo fn delay 3 tr =
      match fn tr with
      | (tr1, Except.ok a) => (tr1, Except.ok a)
      | (tr1, Except.error _) => retryGo fn delay 2 (tr1 ++ [Event.sleep delay]) := rfl

theorem retryGo_two (fn : List Event → List Event × Except String Unit)
    (delay : Nat) (tr : List Event) :
    retryGo fn delay 2 tr =
      match fn tr with
      | (tr1, Except.ok a) => (tr1, Except.ok a)
      | (tr1, Except.error _) => retryGo fn delay 1 (tr1 ++ [Event.sleep delay]) := rfl

/-- Counterexample for C7: in tag_utils, with pull and tag always
succeeding and the push failing exactly once, the whole `promote` unit is
retried, so the already-succeeded pull command is invoked twice (the claim
implies it would stay at one). -/
theorem unit_retry_C7_counterexample :
    execCount (retry (promote envPushFlaky false "img" "a" "b")
      RETRY_COUNT RETRY_DELAY []).1 (tuPullCmd "img" "a") = 2 ∧
    execCount (retry (promote envPushFlaky false "img" "a" "b")
      RETRY_COUNT RETRY_DELAY []).1 (tuTagCmd "img" "a" "b") = 2 ∧
    (retry (promote envPushFlaky false "img" "a" "b")
      RETRY_COUNT RETRY_DELAY []).2 = Except.ok () ∧
    (2 : Nat) ≠ 1 := by
  refine ⟨rfl, rfl, rfl, by omega⟩

/-- C7 amended: in fabfile each of pull/tag/push is independently wrapped
by `retry_command` — the pull count never changes after the pull phase and
the tag count never changes after the tag phase; in tag_utils only
`validate` is independently wrapped, while pull, tag and push together
form the single retried `promote` unit, so when pull and tag always
succeed but push fails once before succeeding, pull and tag are
re-executed (2 invocations each). -/
theorem step_retry_C7_amended (env : ExecEnv) (i s d dry : String) (tr : List Event)
    (env3 : ExecEnv) (i3 s3 d3 : String)
    (hpull : ∀ k, env3 (tuPullCmd i3 s3) k = Except.ok ())
    (htag : ∀ k, env3 (tuTagCmd i3 s3 d3) k = Except.ok ())
    (hpush0 : ∃ e, env3 (tuPushCmd i3 d3) 0 = Except.error e)
    (hpush1 : env3 (tuPushCmd i3 d3) 1 = Except.ok ()) :
    (execCount (process_image env i s d dry tr).1 (pullCmd i s) =
      execCount (retry_command env (pullCmd i s) 3 tr).1 (pullCmd i s)) ∧
    (∀ tr1 u, retry_command env (pullCmd i s) 3 tr = (tr1, Except.ok u) →
      execCount (process_image env i s d dry tr).1 (tagCmd i s d) =
        execCount (retry_command env (tagCmd i s d) 3 tr1).1 (tagCmd i s d)) ∧
    (execCount (retry (promote env3 false i3 s3 d3) RETRY_COUNT RETRY_DELAY []).1
        (tuPullCmd i3 s3) = 2 ∧
     execCount (retry (promote env3 false i3 s3 d3) RETRY_COUNT RETRY_DELAY []).1
        (tuTagCmd i3 s3 d3) = 2 ∧
     (retry (promote env3 false i3 s3 d3) RETRY_COUNT RETRY_DELAY []).2 =
       Except.ok ()) := by
  obtain ⟨e0, he0⟩ := hpush0
  have hpq : tuPullCmd i3 s3 ≠ tuPushCmd i3 d3 := tuPullCmd_ne_tuPushCmd i3 s3 i3 d3
  have htq : tuTagCmd i3 s3 d3 ≠ tuPushCmd i3 d3 := tuTagCmd_ne_tuPushCmd i3 s3 d3 i3 d3
  have hpt : tuPullCmd i3 s3 ≠ tuTagCmd i3 s3 d3 := tuPullCmd_ne_tuTagCmd i3 s3 i3 s3 d3
  have hbpq : (tuPullCmd i3 s3 == tuPushCmd i3 d3) = false := beq_eq_false_iff_ne.mpr hpq
  have hbtq : (tuTagCmd i3 s3 d3 == tuPushCmd i3 d3) = false := beq_eq_false_iff_ne.mpr htq
  have hbpt : (tuPullCmd i3 s3 == tuTagCmd i3 s3 d3) = false := beq_eq_false_iff_ne.mpr hpt
  have hbqp : (tuPushCmd i3 d3 == tuPullCmd i3 s3) = false :=
    beq_eq_false_iff_ne.mpr hpq.symm
  have hbqt : (tuPushCmd i3 d3 == tuTagCmd i3 s3 d3) = false :=
    beq_eq_false_iff_ne.mpr htq.symm
  have hbtp : (tuTagCmd i3 s3 d3 == tuPullCmd i3 s3) = false :=
    beq_eq_false_iff_ne.mpr hpt.symm
  have hprom1 : promote env3 false i3 s3 d3 [] =
      ([Event.exec (tuPullCmd i3 s3), Event.exec (tuTagCmd i3 s3 d3),
        Event.exec (tuPushCmd i3 d3)], Except.error e0) := by
    rw [promote_run, hpull]
    dsimp only
    rw [htag]
    dsimp only
    rw [show execCount (([] ++ [Event.exec (tuPullCmd i3 s3)]) ++
        [Event.exec (tuTagCmd i3 s3 d3)]) (tuPushCmd i3 d3) = 0 from by
      simp [execCount, List.countP_cons, isExecOf, hbpq, hbtq]]
    rw [he0]
    simp
  have hprom2 : promote env3 false i3 s3 d3
      [Event.exec (tuPullCmd i3 s3), Event.exec (tuTagCmd i3 s3 d3),
        Event.exec (tuPushCmd i3 d3), Event.sleep RETRY_DELAY] =
      ([Event.exec (tuPullCmd i3 s3), Event.exec (tuTagCmd i3 s3 d3),
        Event.exec (tuPushCmd i3 d3), Event.sleep RETRY_DELAY,
        Event.exec (tuPullCmd i3 s3), Event.exec (tuTagCmd i3 s3 d3),
        Event.exec (tuPushCmd i3 d3)], Except.ok ()) := by
    rw [promote_run, hpull]
    dsimp only
    rw [htag]
    dsimp only
    rw [show execCount (([Event.exec (tuPullCmd i3 s3), Event.exec (tuTagCmd i3 s3 d3),
        Event.exec (tuPushCmd i3 d3), Event.sleep RETRY_DELAY] ++
        [Event.exec (tuPullCmd i3 s3)]) ++ [Event.exec (tuTagCmd i3 s3 d3)])
        (tuPushCmd i3 d3) = 1 from by
      simp [execCount, List.countP_cons, isExecOf, hbpq, hbtq]]
    rw [hpush1]
    simp
  refine ⟨process_image_count_eq_pull_phase env i s d dry tr, ?_, ?_⟩
  · intro tr1 u h1
    exact process_image_count_eq_tag_phase env i s d dry tr tr1 u h1
  · rw [show retry (promote env3 false i3 s3 d3) RETRY_COUNT RETRY_DELAY [] =
        retryGo (promote env3 false i3 s3 d3) RETRY_DELAY 3 [] from rfl]
    rw [retryGo_three, hprom1]
    dsimp only
    rw [show ([Event.exec (tuPullCmd i3 s3), Event.exec (tuTagCmd i3 s3 d3),
        Event.exec (tuPushCmd i3 d3)] ++ [Event.sleep RETRY_DELAY]) =
      [Event.exec (tuPullCmd i3 s3), Event.exec (tuTagCmd i3 s3 d3),
        Event.exec (tuPushCmd i3 d3), Event.sleep RETRY_DELAY] from rfl]
    rw [retryGo_two, hprom2]
    dsimp only
    refine ⟨?_, ?_, rfl⟩
    · simp [execCount, List.countP_cons, isExecOf, hbtp, hbqp]
    · simp [execCount, List.countP_cons, isExecOf, hbpt, hbqt]

/-- Witness for C7 amended, at the concrete flaky-push environment. -/
theorem step_retry_C7_amended_witness :
    execCount (process_image envPushFlaky "svc" "latest" "stable" "NO" []).1
        (pullCmd "svc" "latest") =
      execCount (retry_command envPushFlaky (pullCmd "svc" "latest") 3 []).1
        (pullCmd "svc" "latest") ∧
    execCount (retry (promote envPushFlaky false "img" "a" "b")
        RETRY_COUNT RETRY_DELAY []).1 (tuPullCmd "img" "a") = 2 := by
  have h := step_retry_C7_amended envPushFlaky "svc" "latest" "stable" "NO" []
    envPushFlaky "img" "a" "b"
    (fun k => rfl)
    (fun k => rfl)
    ⟨"push failed", rfl⟩
    rfl
  exact ⟨h.1, h.2.2.1⟩

/-- C8: when the pull step fails on all its retry attempts, `process_image`
returns a FAILURE result whose message is exactly the pull error (so the
message contains it), and neither the tag nor the push command is ever
invoked. -/
theorem pull_failure_C8 (env : ExecEnv) (i s d dry : String) (tr tr1 : List Event)
    (e : String)
    (h1 : retry_command env (pullCmd i s) 3 tr = (tr1, Except.error e)) :
    (process_image env i s d dry tr).2 = ⟨i, s, d, Status.FAILURE, e⟩ ∧
    execCount (process_image env i s d dry tr).1 (tagCmd i s d) =
      execCount tr (tagCmd i s d) ∧
    execCount (process_image env i s d dry tr).1 (pushCmd i d) =
      execCount tr (pushCmd i d) := by
  have hpi := process_image_pull_err env i s d dry tr tr1 e h1
  have htr1 : tr1 = (retryCommandGo env (pullCmd i s) 3 0 tr).1 :=
    (congrArg Prod.fst h1).symm
  refine ⟨by rw [hpi], ?_, ?_⟩
  · rw [hpi]
    dsimp only
    rw [htr1, retryCommandGo_count_other env (pullCmd i s) (tagCmd i s d)
      (pullCmd_ne_tagCmd i s i s d).symm]
  · rw [hpi]
    dsimp only
    rw [htr1, retryCommandGo_count_other env (pullCmd i s) (pushCmd i d)
      (pullCmd_ne_pushCmd i s i d).symm]

/-- Witness for C8 with the all-failing environment. -/
theorem pull_failure_C8_witness :
    (process_image envFail "svc" "latest" "stable" "NO" []).2 =
      ⟨"svc", "latest", "stable", Status.FAILURE, "boom"⟩ ∧
    execCount (process_image envFail "svc" "latest" "stable" "NO" []).1
      (tagCmd "svc" "latest" "stable") = 0 ∧
    execCount (process_image envFail "svc" "latest" "stable" "NO" []).1
      (pushCmd "svc" "stable") = 0 := by
  have h := pull_failure_C8 envFail "svc" "latest" "stable" "NO" []
    [Event.exec (pullCmd "svc" "latest"), Event.sleep 1, Event.exec (pullCmd "svc" "latest"),
     Event.sleep 2, Event.exec (pullCmd "svc" "latest")] "boom" rfl
  exact ⟨h.1, h.2.1, h.2.2⟩

/-- C10: once pull and tag have succeeded, the push step executes iff the
dry_run argument is the exact string "NO" (case-sensitive): for "NO" the
push command is invoked at least once; for every other string the push
count is unchanged and the result is DRY_RUN_SUCCESS. -/
theorem push_condition_C10 (env : ExecEnv) (i s d dry : String)
    (tr tr1 tr2 : List Event) (u v : Bool)
    (h1 : retry_command env (pullCmd i s) 3 tr = (tr1, Except.ok u))
    (h2 : retry_command env (tagCmd i s d) 3 tr1 = (tr2, Except.ok v)) :
    (dry = "NO" →
      execCount tr (pushCmd i d) + 1 ≤
        execCount (process_image env i s d dry tr).1 (pushCmd i d)) ∧
    (dry ≠ "NO" →
      execCount (process_image env i s d dry tr).1 (pushCmd i d) =
        execCount tr (pushCmd i d) ∧
      (process_image env i s d dry tr).2 =
        ⟨i, s, d, Status.DRY_RUN_SUCCESS, "Image successfully tagged (Dry Run)."⟩) := by
  have hc1 : execCount tr1 (pushCmd i d) = execCount tr (pushCmd i d) := by
    rw [show tr1 = (retryCommandGo env (pullCmd i s) 3 0 tr).1 from
        (congrArg Prod.fst h1).symm,
      retryCommandGo_count_other env (pullCmd i s) (pushCmd i d)
        (pullCmd_ne_pushCmd i s i d).symm]
  have hc2 : execCount tr2 (pushCmd i d) = execCount tr1 (pushCmd i d) := by
    rw [show tr2 = (retryCommandGo env (tagCmd i s d) 3 0 tr1).1 from
        (congrArg Prod.fst h2).symm,
      retryCommandGo_count_other env (tagCmd i s d) (pushCmd i d)
        (tagCmd_ne_pushCmd i s d i d).symm]
  constructor
  · intro hd
    subst hd
    cases h3 : retry_command env (pushCmd i d) 3 tr2 with
    | mk tr3 rq =>
      have hge : execCount tr2 (pushCmd i d) + 1 ≤ execCount tr3 (pushCmd i d) := by
        rw [show tr3 = (retryCommandGo env (pushCmd i d) 3 0 tr2).1 from
            (congrArg Prod.fst h3).symm]
        exact retryCommandGo_count_self_ge env (pushCmd i d) 3 0 tr2 (by omega)
      cases rq with
      | error e =>
        rw [process_image_push_err env i s d tr tr1 tr2 tr3 u v e h1 h2 h3]
        dsimp only
        omega
      | ok w =>
        rw [process_image_push_ok env i s d tr tr1 tr2 tr3 u v w h1 h2 h3]
        dsimp only
        omega
  · intro hd
    rw [process_image_dry env i s d dry tr tr1 tr2 u v hd h1 h2]
    exact ⟨by dsimp only; rw [hc2, hc1], rfl⟩

/-- Witness for C10: "NO" pushes; the lower-case "no" does not and yields
DRY_RUN_SUCCESS. -/
theorem push_condition_C10_witness :
    execCount ([] : List Event) (pushCmd "svc" "stable") + 1 ≤
      execCount (process_image envOk "svc" "latest" "stable" "NO" []).1
        (pushCmd "svc" "stable") ∧
    execCount (process_image envOk "svc" "latest" "stable" "no" []).1
        (pushCmd "svc" "stable") = execCount ([] : List Event) (pushCmd "svc" "stable") ∧
    (process_image envOk "svc" "latest" "stable" "no" []).2 =
      ⟨"svc", "latest", "stable", Status.DRY_RUN_SUCCESS,
        "Image successfully tagged (Dry Run)."⟩ := by
  have hNO := push_condition_C10 envOk "svc" "latest" "stable" "NO" []
    [Event.exec (pullCmd "svc" "latest")]
    [Event.exec (pullCmd "svc" "latest"), Event.exec (tagCmd "svc" "latest" "stable")]
    true true rfl rfl
  have hno := push_condition_C10 envOk "svc" "latest" "stable" "no" []
    [Event.exec (pullCmd "svc" "latest")]
    [Event.exec (pullCmd "svc" "latest"), Event.exec (tagCmd "svc" "latest" "stable")]
    true true rfl rfl
  exact ⟨hNO.1 rfl, (hno.2 (by decide)).1, (hno.2 (by decide)).2⟩

/-- C9: when the template selected by the overall status cannot be found,
the Notifier does not abort: `load_template` degrades to an inline
"Template ... not found!" body and `create_email_body` still produces the
subject and a body obtained by substituting the placeholders into that
inline error message. -/
theorem notifier_template_C9 (fs fs2 : String → Option String)
    (decode : String → Option (List (String × String)))
    (args args2 : EmailArgs) (results results2 : List Result)
    (hS : args.status = "SUCCESS") (hmiss : fs "email_success.html" = none)
    (hF : args2.status ≠ "SUCCESS") (hmiss2 : fs2 "email_failure.html" = none) :
    create_email_body fs decode args results =
      ("[SUCCESS] Docker Tagging Job: " ++ lastSegment args.release_link,
       applyReplacements
         (buildReplacements decode args results "#007bff" "Image Promotion Completed")
         "<h1>Error: Template email_success.html not found!</h1>") ∧
    create_email_body fs2 decode args2 results2 =
      ("[FAILURE] Docker Tagging Job: " ++ lastSegment args2.release_link,
       applyReplacements
         (buildReplacements decode args2 results2 "#dc3545" "Image Promotion Failed")
         "<h1>Error: Template email_failure.html not found!</h1>") := by
  constructor
  · unfold create_email_body
    rw [if_pos hS]
    dsimp only
    rw [show load_template fs "email_success.html" =
        "<h1>Error: Template email_success.html not found!</h1>" from by
      unfold load_template; rw [hmiss]; rfl]
    rfl
  · unfold create_email_body
    rw [if_neg hF]
    dsimp only
    rw [show load_template fs2 "email_failure.html" =
        "<h1>Error: Template email_failure.html not found!</h1>" from by
      unfold load_template; rw [hmiss2]; rfl]
    rfl

/-- Witness for C9 at an empty filesystem and decoder. -/
theorem notifier_template_C9_witness :
    create_email_body (fun _ => none) (fun _ => none)
      ⟨"SUCCESS", "r", "l", "rf", "j", "http://x/T-1", "b", "YES", "p"⟩ [] =
      ("[SUCCESS] Docker Tagging Job: " ++ lastSegment "http://x/T-1",
       applyReplacements
         (buildReplacements (fun _ => none)
           ⟨"SUCCESS", "r", "l", "rf", "j", "http://x/T-1", "b", "YES", "p"⟩ []
           "#007bff" "Image Promotion Completed")
         "<h1>Error: Template email_success.html not found!</h1>") :=
  (notifier_template_C9 (fun _ => none) (fun _ => none) (fun _ => none)
    ⟨"SUCCESS", "r", "l", "rf", "j", "http://x/T-1", "b", "YES", "p"⟩
    ⟨"FAILURE", "r", "l", "rf", "j", "http://x/T-2", "b", "YES", "p"⟩
    [] [] rfl rfl (by decide) rfl).1
